import Mathlib

/-!
Verification development for the anomaly-detection dashboard generator
(`anomaly_detection.py`, `kusto_connection.py`, `dashboard.py`, `main.py`).

The query engine and the dashboard HTTP publish call are external
collaborators.  Every network round trip is modeled by an explicit input:

* the Kusto response that feeds `extract_dt` is modeled as the optional
  whole-second time difference `Option Nat` between the two most recent
  timestamps (`none` when the difference query returns no row, which is what
  happens when the series has fewer than two rows);
* the text that the `extract_dt(...)` call contributes to each query template
  is threaded through the generator functions as the parameter `dt` (Python
  interpolates `str(result)` at that spot);
* the publish call itself returns nothing that influences the document, so it
  is not modeled.

All string constants are transcribed from the source character by character;
`\x7b`/`\x7d` denote the brace characters and `\x27` the single quote.
-/

/-! ### Small Python-semantics helpers -/

/-- Python truthiness of an optional string: `None` and `""` are falsy. -/
def pyTruthy : Option String → Bool
  | none => false
  | some s => !(s == "")

/-- The text Python interpolates for an optional string: `str(None) = "None"`. -/
def pyStrOpt : Option String → String
  | none => "None"
  | some s => s

/-- The whitespace class used by Python `str.strip()` (ASCII part). -/
def isPyWs (c : Char) : Bool :=
  c == ' ' || c == '\t' || c == '\n' || c == '\r' || c == '\x0b' || c == '\x0c'

/-- Drop the longest suffix of the list all of whose elements satisfy `p`. -/
def dropWhileEndL (p : Char → Bool) : List Char → List Char
  | [] => []
  | c :: l =>
    match dropWhileEndL p l with
    | [] => if p c = true then [] else [c]
    | r :: rs => c :: r :: rs

/-- Python `str.strip()`: remove leading and trailing whitespace. -/
def pyStrip (s : String) : String :=
  String.mk (dropWhileEndL isPyWs (s.data.dropWhile isPyWs))

/-- Boolean prefix test on character lists (structured so that the empty
pattern case reduces without inspecting the second argument). -/
def isPre : List Char → List Char → Bool
  | [], _ => true
  | a :: as, l =>
    match l with
    | [] => false
    | b :: bs => a == b && isPre as bs

/-- Number of positions at which `pat` occurs as a contiguous substring of the
list (each starting position counted once). -/
def countOccsL (pat : List Char) : List Char → Nat
  | [] => 0
  | c :: l => (if isPre pat (c :: l) then 1 else 0) + countOccsL pat l

/-- Number of occurrences of `pat` as a substring of `s`. -/
def countOccs (pat s : String) : Nat := countOccsL pat.data s.data

/-! ### kusto_connection.extract_dt (Window Estimator) -/

/-- Translation of `extract_dt` from src/kusto_connection.py.  The network
round trip (the KQL query computing `TimeDifference` between the two most
recent timestamps) is modeled by the input: `none` when no difference row
comes back (fewer than two rows in the series, or no primary results), and
`some n` for a whole-second difference of `n` seconds.  For a non-negative
pandas `Timedelta`, `.days` is `n / 86400` and `.seconds` is `n % 86400`. -/
def extract_dt (timeDifference : Option Nat) : Option String :=
  match timeDifference with
  | none => none
  | some td =>
    let days := td / 86400
    let seconds := td % 86400
    let hours := seconds / 3600
    let minutes := (seconds % 3600) / 60
    let secs := seconds % 60
    let tc1 : List String := if days > 0 then [Nat.repr days ++ "d"] else []
    let tc2 := tc1 ++ (if hours > 0 then [Nat.repr hours ++ "h"] else [])
    let tc3 := tc2 ++ (if minutes > 0 then [Nat.repr minutes ++ "m"] else [])
    let tc4 := tc3 ++ (if secs > 0 then [Nat.repr secs ++ "s"] else [])
    if tc4.isEmpty then some "1d" else some (String.intercalate " " tc4)

/-- The Window Estimator output as the specification words it: decompose the
difference into days, hours, minutes and seconds, keep only the non-zero
components, join them with single spaces in that order ("1d" when every
component is zero).  Written independently of `extract_dt` for comparison. -/
def windowSpecFormat (n : Nat) : String :=
  let comps := [(n / 86400, "d"), (n % 86400 / 3600, "h"),
                (n % 86400 % 3600 / 60, "m"), (n % 86400 % 60, "s")]
  let nonzero := (comps.filter (fun p => p.1 != 0)).map (fun p => Nat.repr p.1 ++ p.2)
  if nonzero.isEmpty then "1d" else String.intercalate " " nonzero

/-! ### anomaly_detection.py: the five query template functions -/

/-- Translation of `generate_series_decomposition_query` (src/anomaly_detection.py).
`dimension_column = none` models Python `None`; `dt` is the interpolated text of
the `extract_dt(base_query, time_column)` call result. -/
def generate_series_decomposition_query (base_query : String) (columns : List String)
    (dimension_column : Option String) (dt : String) : String :=
  let time_column := columns.getD 0 ""
  let value_column := columns.getD 1 ""
  let where_clause :=
    if pyTruthy dimension_column then
      "| where tostring(" ++ pyStrOpt dimension_column ++ ") == \"" ++
        ("$\x7b" ++ pyStrOpt dimension_column ++ "\x7d") ++ "\""
    else ""
  pyStrip ("\n    let dt = " ++ dt ++ ";\n    let min_t = toscalar(" ++ base_query ++
    " | summarize min(" ++ time_column ++ "));\n    let max_t = toscalar(" ++ base_query ++
    " | summarize max(" ++ time_column ++ "));\n    let decomposed_data = " ++ base_query ++
    "\n    | make-series num=avg(todouble(" ++ value_column ++ ")) on " ++ time_column ++
    " from min_t to max_t step dt\n    | extend (Baseline, Seasonal, Trend, Residual) = series_decompose(num, -1, \x27linefit\x27)\n    | mv-expand " ++
    time_column ++
    " to typeof(datetime), num to typeof(real), Seasonal to typeof(real), Trend to typeof(real)\n    | project " ++
    time_column ++ ", Trend, Seasonal;\n    let joined_data = " ++ base_query ++
    "\n    | join kind=leftouter decomposed_data on " ++ time_column ++
    ";\n    let decomposed_by_" ++ pyStrOpt dimension_column ++ " = joined_data\n    | project " ++
    time_column ++ ", " ++ value_column ++ ", Seasonal, Trend" ++
    (if pyTruthy dimension_column then ", tostring(" ++ pyStrOpt dimension_column ++ ")" else "") ++
    "\n    " ++ where_clause ++ ";\n    decomposed_by_" ++ pyStrOpt dimension_column ++ "\n    ")

/-- Translation of `generate_series_decompose_anomalies_query` (src/anomaly_detection.py). -/
def generate_series_decompose_anomalies_query (base_query : String) (columns : List String)
    (dimension_column : Option String) (dt : String) : String :=
  let time_column := columns.getD 0 ""
  let value_column := columns.getD 1 ""
  let where_clause :=
    if pyTruthy dimension_column then
      "| where tostring(" ++ pyStrOpt dimension_column ++ ") == \"" ++
        ("$\x7b" ++ pyStrOpt dimension_column ++ "\x7d") ++ "\""
    else ""
  pyStrip ("\n    let dt = " ++ dt ++ ";\n    let min_t = toscalar(" ++ base_query ++
    " | summarize min(" ++ time_column ++ "));\n    let max_t = toscalar(" ++ base_query ++
    " | summarize max(" ++ time_column ++ "));\n    let anomalies_data = " ++ base_query ++
    "\n    | make-series num=avg(todouble(" ++ value_column ++ ")) on " ++ time_column ++
    " from min_t to max_t step dt\n    | extend (Anomalies, AnomalyScore) = series_decompose_anomalies(num, todouble(\"$\x7bAnomalyThreshold\x7d\"), -1, \x27linefit\x27)\n    | mv-expand " ++
    time_column ++
    " to typeof(datetime), Anomalies to typeof(real), AnomalyScore to typeof(real)\n    | project " ++
    time_column ++ ", Anomalies, AnomalyScore;\n    let joined_data = " ++ base_query ++
    "\n    | join kind=leftouter anomalies_data on " ++ time_column ++
    ";\n    let anomalies_by_" ++ pyStrOpt dimension_column ++ " = joined_data\n    | project " ++
    time_column ++ ", " ++ value_column ++ ", Anomalies, AnomalyScore" ++
    (if pyTruthy dimension_column then ", tostring(" ++ pyStrOpt dimension_column ++ ")" else "") ++
    "\n    " ++ where_clause ++ ";\n    anomalies_by_" ++ pyStrOpt dimension_column ++ "\n    ")

/-- Translation of `generate_anomaly_count_per_segment_query` (src/anomaly_detection.py).
Python's `dimension_columns or []` maps `None` to the empty list; with no
dimensions the function returns `None` (model: `none`) to signal a skip. -/
def generate_anomaly_count_per_segment_query (base_query : String) (columns : List String)
    (dimension_columns : Option (List String)) (dt : String) : Option String :=
  let time_column := columns.getD 0 ""
  let value_column := columns.getD 1 ""
  let dcs := dimension_columns.getD []
  if dcs.isEmpty then none
  else
    let by_clause := String.intercalate ", " dcs
    some (pyStrip ("\n    let dt = " ++ dt ++ ";\n    let min_t = toscalar(" ++ base_query ++
      " | summarize min(" ++ time_column ++ "));\n    let max_t = toscalar(" ++ base_query ++
      " | summarize max(" ++ time_column ++ "));\n    let anomaly_scores = " ++ base_query ++
      "\n    | make-series num=avg(todouble(" ++ value_column ++ ")) on " ++ time_column ++
      " from min_t to max_t step dt\n    | extend Anomalies = series_decompose_anomalies(num, todouble(\"$\x7bAnomalyThreshold\x7d\"), -1, \x27linefit\x27)\n    | mv-expand " ++
      time_column ++ " to typeof(datetime), Anomalies to typeof(real)\n    | project " ++
      time_column ++ ", Anomalies;\n    " ++ base_query ++
      "\n    | join kind=leftouter anomaly_scores on " ++ time_column ++
      "\n    | where Anomalies == 1\n    | summarize AnomalyCount = count() by Anomalies, " ++
      by_clause ++ "\n    | project AnomalyCount, " ++ by_clause ++
      "\n    | sort by AnomalyCount desc"))

/-- Translation of `generate_anomaly_count_bar_chart` (src/anomaly_detection.py).
Here `dimension_column` is a required plain string parameter. -/
def generate_anomaly_count_bar_chart (base_query : String) (columns : List String)
    (dimension_column : String) (dt : String) : String :=
  let time_column := columns.getD 0 ""
  let value_column := columns.getD 1 ""
  pyStrip ("\n    let dt = " ++ dt ++ ";\n    let min_t = toscalar(" ++ base_query ++
    " | summarize min(" ++ time_column ++ "));\n    let max_t = toscalar(" ++ base_query ++
    " | summarize max(" ++ time_column ++ "));\n    let anomalies_data = " ++ base_query ++
    "\n    | make-series num=avg(todouble(" ++ value_column ++ ")) on " ++ time_column ++
    " from min_t to max_t step dt\n    | extend Anomalies = series_decompose_anomalies(num, todouble(\"$\x7bAnomalyThreshold\x7d\"), -1, \x27linefit\x27)\n    | mv-expand " ++
    time_column ++ " to typeof(datetime), Anomalies to typeof(real)\n    | project " ++
    time_column ++ ", Anomalies;\n    let joined_data = " ++ base_query ++
    "\n    | join kind=leftouter anomalies_data on " ++ time_column ++
    "\n    | where Anomalies == 1;\n    let anomalies_by_" ++ dimension_column ++
    " = joined_data\n    | summarize AnomalyCount = count() by tostring(" ++ dimension_column ++
    ")\n    | extend Category = tostring(" ++ dimension_column ++
    ");\n    anomalies_by_" ++ dimension_column ++ "\n    ")

/-- Translation of `generate_dimension_anomaly_barchart` (src/anomaly_detection.py):
a union over one count per dimension; `none` (skip) when no dimensions exist. -/
def generate_dimension_anomaly_barchart (base_query : String) (columns : List String)
    (dimension_columns : Option (List String)) (dt : String) : Option String :=
  let time_column := columns.getD 0 ""
  let value_column := columns.getD 1 ""
  let dcs := dimension_columns.getD []
  if dcs.isEmpty then none
  else
    let dimension_projection := String.join (dcs.map (fun col => ", " ++ col))
    let union_queries := String.intercalate " | union " (dcs.map (fun d => "anomalies_by_" ++ d))
    some (pyStrip ("\n    let dt = " ++ dt ++ ";\n    let min_t = toscalar(" ++ base_query ++
      " | summarize min(" ++ time_column ++ "));\n    let max_t = toscalar(" ++ base_query ++
      " | summarize max(" ++ time_column ++ "));\n    let anomalies_data = " ++ base_query ++
      "\n    | make-series num=avg(todouble(" ++ value_column ++ ")) on " ++ time_column ++
      " from min_t to max_t step dt\n    | extend Anomalies = series_decompose_anomalies(num, todouble(\"$\x7bAnomalyThreshold\x7d\"), -1, \x27linefit\x27)\n    | mv-expand " ++
      time_column ++ " to typeof(datetime), Anomalies to typeof(real)\n    | project " ++
      time_column ++ ", Anomalies;\n    let joined_data = " ++ base_query ++
      "\n    | join kind=leftouter anomalies_data on " ++ time_column ++
      "\n    | where Anomalies == 1\n    | project " ++ time_column ++ ", Anomalies" ++
      dimension_projection ++ ";\n    " ++
      String.join (dcs.map (fun dimension =>
        "\n    let anomalies_by_" ++ dimension ++
        " = joined_data\n    | summarize AnomalyCount = count() by Dimension = \x27" ++
        dimension ++ "\x27;\n    ")) ++
      "\n    " ++ union_queries ++ "\n    "))

/-! ### dashboard.py: uid derivation, rows, panel layout -/

/-- ASCII model of the regex word-character class `[a-zA-Z0-9_]`. -/
def isWordChar (c : Char) : Bool := c.isAlphanum || c == '_'

/-- Model of the regex replacement over a character list (re.sub of the
pattern of one-or-more non-word characters by a dash): `inRun` records whether
the scanner is inside a run of non-word characters whose single replacement
dash has already been emitted. -/
def collapse_aux : List Char → Bool → List Char
  | [], _ => []
  | c :: l, inRun =>
    if isWordChar c then c :: collapse_aux l false
    else if inRun then collapse_aux l true
    else '-' :: collapse_aux l true

/-- The dashboard identifier computation of `create_dashboard`
(src/dashboard.py line 38): `re.sub(r'\W+', '-', dashboard_title.lower()).strip('-')`. -/
def dashboard_uid (dashboard_title : String) : String :=
  let subbed := collapse_aux (dashboard_title.data.map Char.toLower) false
  String.mk (dropWhileEndL (fun c => c == '-') (subbed.dropWhile (fun c => c == '-')))

/-- One entry of main.py's `queries_and_titles` list.  Row separators carry no
query and no repeat binding and have `collapsed = false`. -/
structure QT where
  query : Option String
  title : String
  qtype : String
  repeat_ : Option String
  collapsed : Bool
deriving DecidableEq

/-- Translation of `dashboard.add_row`. -/
def add_row (queries_and_titles : List QT) (title : String) : List QT :=
  queries_and_titles ++
    [{ query := none, title := title, qtype := "row", repeat_ := none, collapsed := false }]

/-- A templating variable definition (the fields of the Grafana dicts built in
main.py that the claims speak about). -/
structure VarDef where
  vtype : String
  name : String
  label : String
  query : String
  datasource : Option String
  multi : Bool
  includeAll : Bool
  allValue : Option String
  currentText : Option String
deriving DecidableEq

/-- The fixed AnomalyThreshold textbox variable (main.py lines 72-84). -/
def anomaly_threshold_definition : VarDef :=
  { vtype := "textbox", name := "AnomalyThreshold", label := "Anomaly Threshold",
    query := "", datasource := none, multi := false, includeAll := false,
    allValue := none, currentText := some "1.5" }

/-- The query-driven multi-select variable built for one dimension column
(main.py lines 134-150). -/
def dimension_variable_definition (base_query datasource_name dimension_column : String) :
    VarDef :=
  { vtype := "query", name := dimension_column, label := dimension_column,
    query := base_query ++ "\n| project " ++ dimension_column ++ " = tostring(" ++
      dimension_column ++ ")\n| distinct " ++ dimension_column,
    datasource := some datasource_name, multi := true, includeAll := true,
    allValue := some ".*", currentText := none }

/-- A rendered dashboard panel (the layout-relevant fields of the dicts built
in `create_dashboard`). -/
structure Panel where
  ptype : String
  title : String
  id : Nat
  h : Nat
  w : Nat
  x : Nat
  y : Nat
  repeat_ : Option String
  query : Option String
deriving DecidableEq

/-- The panel-assembly loop of `create_dashboard` (src/dashboard.py lines 59-172):
`panel_id` starts at 1, `y_position` at 0; rows get height 1, all other panels
height 8, both full width (24) at x = 0. -/
def build_panels : List QT → Nat → Nat → List Panel
  | [], _, _ => []
  | item :: rest, panel_id, y_position =>
    if item.qtype == "row" then
      { ptype := "row", title := item.title, id := panel_id, h := 1, w := 24, x := 0,
        y := y_position, repeat_ := none, query := none } ::
        build_panels rest (panel_id + 1) (y_position + 1)
    else
      { ptype := item.qtype, title := item.title, id := panel_id, h := 8, w := 24, x := 0,
        y := y_position,
        repeat_ := if pyTruthy item.repeat_ then item.repeat_ else none,
        query := item.query } ::
        build_panels rest (panel_id + 1) (y_position + 8)

/-- The panel list of the dashboard document assembled by `create_dashboard`. -/
def create_dashboard_panels (queries_and_titles : List QT) : List Panel :=
  build_panels queries_and_titles 1 0

/-! ### main.py: the Panel Planner -/

/-- The ordered `queries_and_titles` list built by `main` (src/main.py lines
89-220), with the query-engine seam parametrized by `dt` as above.  Each
`add_row`/append step of the source is one `let` step here; the two per-dimension
loops become `List.map` over `dimension_columns` in column order. -/
def plan_queries_and_titles (base_query : String) (columns dimension_columns : List String)
    (dt : String) : List QT :=
  let qt0 : List QT := []
  let qt1 := add_row qt0 "Time Series Plot"
  let qt2 := qt1 ++
    [{ query := some (generate_series_decomposition_query base_query columns none dt),
       title := "Series Decomposition", qtype := "timeseries", repeat_ := none,
       collapsed := false }]
  let qt3 := qt2 ++
    [{ query := some (generate_series_decompose_anomalies_query base_query columns none dt),
       title := "Anomalies", qtype := "timeseries", repeat_ := none, collapsed := false }]
  let qt4 := add_row qt3 "Anomalies Count Per Dimension"
  let qt5 := qt4 ++
    (match generate_dimension_anomaly_barchart base_query columns (some dimension_columns) dt with
     | some q => [{ query := some q, title := "Anomalies Per Dimension", qtype := "barchart",
                    repeat_ := none, collapsed := false }]
     | none => [])
  let qt6 := add_row qt5 "Anomalies Count"
  let qt7 := qt6 ++ dimension_columns.map (fun dimension_column =>
    { query := some (generate_anomaly_count_bar_chart base_query columns dimension_column dt),
      title := "Anomalies Count by " ++ dimension_column, qtype := "barchart",
      repeat_ := none, collapsed := false })
  let qt8 := add_row qt7 "Anomalies Count Per Segment"
  let qt9 := qt8 ++
    (match generate_anomaly_count_per_segment_query base_query columns
        (some dimension_columns) dt with
     | some q =>
        [{ query := some q,
           title := if dimension_columns.length ≥ 2 then
               "Anomaly Count per Segment by " ++ String.intercalate ", " dimension_columns
             else "Anomaly Count by " ++ dimension_columns.getD 0 "",
           qtype := "table", repeat_ := none, collapsed := false }]
     | none => [])
  let qt10 := add_row qt9 "Anomalies Score"
  let qt11 := qt10 ++ dimension_columns.map (fun dimension_column =>
    { query := some (generate_series_decompose_anomalies_query base_query columns
        (some dimension_column) dt),
      title := dimension_column ++ " - $\x7b" ++ dimension_column ++ "\x7d",
      qtype := "timeseries", repeat_ := some dimension_column, collapsed := false })
  let qt12 := add_row qt11 "Series Decomposition"
  qt12 ++ dimension_columns.map (fun dimension_column =>
    { query := some (generate_series_decomposition_query base_query columns
        (some dimension_column) dt),
      title := dimension_column ++ " - $\x7b" ++ dimension_column ++ "\x7d",
      qtype := "timeseries", repeat_ := some dimension_column, collapsed := false })

/-- The `variable_definitions` list built by `main`: the threshold textbox first,
then one query variable per dimension column, in column order (the source
appends each inside the Anomalies-Count loop). -/
def plan_variable_definitions (base_query datasource_name : String)
    (dimension_columns : List String) : List VarDef :=
  anomaly_threshold_definition ::
    dimension_columns.map (dimension_variable_definition base_query datasource_name)

/-- The planning phase of `main` (src/main.py lines 58-220): abort below two
columns, else split the column list positionally and build the variable and
panel-descriptor lists. -/
def main_plan (base_query : String) (all_columns : List String) (datasource_name dt : String) :
    Option (List VarDef × List QT) :=
  if all_columns.length < 2 then none
  else
    let dimension_columns := if all_columns.length > 2 then all_columns.drop 2 else []
    let columns := all_columns.take 2
    some (plan_variable_definitions base_query datasource_name dimension_columns,
          plan_queries_and_titles base_query columns dimension_columns dt)


/-! ### Lemmas about prefixes, substring counting and stripping -/

theorem isPre_nil_left (y : List Char) : isPre [] y = true := rfl

theorem isPre_cons_cons (a : Char) (as : List Char) (b : Char) (bs : List Char) :
    isPre (a :: as) (b :: bs) = (a == b && isPre as bs) := rfl

theorem isPre_append_extend : ∀ (p y z : List Char),
    isPre p y = true → isPre p (y ++ z) = true := by
  intro p
  induction p with
  | nil => intro y z _; rfl
  | cons a as ih =>
    intro y z h
    cases y with
    | nil => simp [isPre] at h
    | cons b bs =>
      rw [isPre_cons_cons, Bool.and_eq_true, beq_iff_eq] at h
      rw [List.cons_append, isPre_cons_cons, Bool.and_eq_true, beq_iff_eq]
      exact ⟨h.1, ih bs z h.2⟩

theorem isPre_self_append : ∀ (p z : List Char), isPre p (p ++ z) = true := by
  intro p
  induction p with
  | nil => intro z; rfl
  | cons a as ih =>
    intro z
    rw [List.cons_append, isPre_cons_cons, Bool.and_eq_true, beq_iff_eq]
    exact ⟨rfl, ih z⟩

theorem mem_of_isPre : ∀ (p l : List Char), isPre p l = true → ∀ a ∈ p, a ∈ l := by
  intro p
  induction p with
  | nil => intro l _ a ha; cases ha
  | cons x xs ih =>
    intro l h a ha
    cases l with
    | nil => simp [isPre] at h
    | cons b bs =>
      rw [isPre_cons_cons, Bool.and_eq_true, beq_iff_eq] at h
      rcases List.mem_cons.mp ha with rfl | ha'
      · exact h.1 ▸ List.mem_cons_self b bs
      · exact List.mem_cons_of_mem b (ih bs h.2 a ha')

theorem isPre_cons_false_of_ne (a : Char) (as : List Char) (b : Char) (bs : List Char)
    (hab : a ≠ b) : isPre (a :: as) (b :: bs) = false := by
  rw [isPre_cons_cons]
  have : (a == b) = false := beq_eq_false_iff_ne.mpr hab
  rw [this, Bool.false_and]

theorem countOccsL_nil (pat : List Char) : countOccsL pat [] = 0 := rfl

theorem countOccsL_cons (pat : List Char) (c : Char) (l : List Char) :
    countOccsL pat (c :: l) = (if isPre pat (c :: l) then 1 else 0) + countOccsL pat l :=
  rfl

theorem countOccsL_append_no_head (c : Char) (rest : List Char) :
    ∀ (x y : List Char), c ∉ x →
      countOccsL (c :: rest) (x ++ y) = countOccsL (c :: rest) y := by
  intro x
  induction x with
  | nil => intro y _; rfl
  | cons a t ih =>
    intro y hx
    have hca : c ≠ a := fun h => hx (h ▸ List.mem_cons_self a t)
    rw [List.cons_append, countOccsL_cons,
      isPre_cons_false_of_ne c rest a (t ++ y) hca, if_neg (by simp),
      ih y (fun h => hx (List.mem_cons_of_mem a h)), Nat.zero_add]

theorem countOccsL_zero_of_not_mem (c : Char) (rest : List Char) :
    ∀ (l : List Char), c ∉ l → countOccsL (c :: rest) l = 0 := by
  intro l
  induction l with
  | nil => intro _; rfl
  | cons a t ih =>
    intro hl
    have hca : c ≠ a := fun h => hl (h ▸ List.mem_cons_self a t)
    rw [countOccsL_cons, isPre_cons_false_of_ne c rest a t hca, if_neg (by simp),
      ih (fun h => hl (List.mem_cons_of_mem a h))]

theorem countOccsL_single (c : Char) (rest A B : List Char)
    (hA : c ∉ A) (hB : c ∉ B) (hr : c ∉ rest) :
    countOccsL (c :: rest) (A ++ ((c :: rest) ++ B)) = 1 := by
  rw [countOccsL_append_no_head c rest A _ hA, List.cons_append, countOccsL_cons]
  have h1 : isPre (c :: rest) (c :: (rest ++ B)) = true := by
    have := isPre_self_append (c :: rest) B
    rwa [List.cons_append] at this
  rw [h1, if_pos rfl]
  have h0 : countOccsL (c :: rest) (rest ++ B) = 0 :=
    countOccsL_zero_of_not_mem c rest (rest ++ B)
      (fun h => (List.mem_append.mp h).elim hr hB)
  rw [h0]

theorem countOccsL_ge_one (c : Char) (rest B : List Char) :
    ∀ (A : List Char), 1 ≤ countOccsL (c :: rest) (A ++ ((c :: rest) ++ B)) := by
  intro A
  induction A with
  | nil =>
    rw [List.nil_append, List.cons_append, countOccsL_cons]
    have h1 : isPre (c :: rest) (c :: (rest ++ B)) = true := by
      have := isPre_self_append (c :: rest) B
      rwa [List.cons_append] at this
    rw [h1, if_pos rfl]
    omega
  | cons a t ih =>
    rw [List.cons_append, countOccsL_cons]
    omega

theorem countOccsL_dropWhile (p : Char → Bool) (c : Char) (rest : List Char)
    (hc : p c = false) :
    ∀ (l : List Char), countOccsL (c :: rest) (l.dropWhile p) = countOccsL (c :: rest) l := by
  intro l
  induction l with
  | nil => rfl
  | cons a t ih =>
    rw [List.dropWhile_cons]
    by_cases hpa : p a = true
    · have hca : c ≠ a := fun h => by rw [h, hpa] at hc; cases hc
      rw [if_pos hpa, ih, countOccsL_cons, isPre_cons_false_of_ne c rest a t hca,
        if_neg (by simp), Nat.zero_add]
    · rw [if_neg hpa]

theorem dropWhileEndL_eq_nil_forall (p : Char → Bool) :
    ∀ (l : List Char), dropWhileEndL p l = [] → ∀ x ∈ l, p x = true := by
  intro l
  induction l with
  | nil => intro _ x hx; cases hx
  | cons c t ih =>
    intro h x hx
    rw [dropWhileEndL] at h
    rcases hr : dropWhileEndL p t with _ | ⟨r, rs⟩
    · rw [hr] at h
      by_cases hpc : p c = true
      · rcases List.mem_cons.mp hx with rfl | hx'
        · exact hpc
        · exact ih hr x hx'
      · rw [if_neg hpc] at h
        cases h
    · rw [hr] at h
      cases h

theorem getLast?_isSome_cons : ∀ (as : List Char) (a : Char),
    ∃ z, (a :: as).getLast? = some z := by
  intro as
  induction as with
  | nil => intro a; exact ⟨a, rfl⟩
  | cons b bs ih =>
    intro a
    rw [List.getLast?_cons_cons]
    exact ih b

theorem getLast?_mem_self : ∀ (l : List Char) (a : Char), l.getLast? = some a → a ∈ l := by
  intro l
  induction l with
  | nil => intro a h; cases h
  | cons c t ih =>
    intro a h
    cases t with
    | nil =>
      simp only [List.getLast?_singleton, Option.some.injEq] at h
      exact h ▸ List.mem_singleton_self c
    | cons d t' =>
      rw [List.getLast?_cons_cons] at h
      exact List.mem_cons_of_mem c (ih a h)

theorem isPre_dropWhileEndL (p : Char → Bool) :
    ∀ (l pat : List Char), (∀ a, pat.getLast? = some a → p a = false) →
      isPre pat (dropWhileEndL p l) = isPre pat l := by
  intro l
  induction l with
  | nil => intro pat _; rfl
  | cons c t ih =>
    intro pat hlast
    rw [dropWhileEndL]
    rcases hr : dropWhileEndL p t with _ | ⟨r, rs⟩
    · have hallt : ∀ x ∈ t, p x = true := dropWhileEndL_eq_nil_forall p t hr
      by_cases hpc : p c = true
      · rw [if_pos hpc]
        cases pat with
        | nil => rfl
        | cons a as =>
          have hall : ∀ x ∈ c :: t, p x = true := by
            intro x hx
            rcases List.mem_cons.mp hx with rfl | hx'
            · exact hpc
            · exact hallt x hx'
          have hrhs : isPre (a :: as) (c :: t) = false := by
            rcases hp2 : isPre (a :: as) (c :: t) with _ | _
            · rfl
            · obtain ⟨z, hz⟩ := getLast?_isSome_cons as a
              have hzmem : z ∈ a :: as := getLast?_mem_self _ z hz
              have : p z = true := hall z (mem_of_isPre _ _ hp2 z hzmem)
              rw [hlast z hz] at this
              cases this
          rw [hrhs]
          rfl
      · rw [if_neg hpc]
        cases pat with
        | nil => rfl
        | cons a as =>
          rw [isPre_cons_cons, isPre_cons_cons]
          have has : isPre as [] = isPre as t := by
            cases as with
            | nil => rcases t with _ | _ <;> rfl
            | cons x xs =>
              have h1 : isPre (x :: xs) ([] : List Char) = false := rfl
              have hlast2 : ∀ b, (x :: xs).getLast? = some b → p b = false := by
                intro b hb
                apply hlast
                rw [List.getLast?_cons_cons]
                exact hb
              have h2 := ih (x :: xs) hlast2
              rw [hr] at h2
              rw [h1, ← h2]
              rfl
          rw [has]
    · cases pat with
      | nil => rfl
      | cons a as =>
        rw [isPre_cons_cons, isPre_cons_cons]
        have hlast2 : ∀ b, as.getLast? = some b → p b = false := by
          intro b hb
          apply hlast
          cases as with
          | nil => cases hb
          | cons x xs => rw [List.getLast?_cons_cons]; exact hb
        have h2 := ih as hlast2
        rw [hr] at h2
        rw [h2]

theorem countOccsL_dropWhileEndL (p : Char → Bool) (pat : List Char)
    (hne : pat ≠ []) (hlast : ∀ a, pat.getLast? = some a → p a = false) :
    ∀ (l : List Char), countOccsL pat (dropWhileEndL p l) = countOccsL pat l := by
  intro l
  induction l with
  | nil => rfl
  | cons c t ih =>
    rw [dropWhileEndL]
    rcases hr : dropWhileEndL p t with _ | ⟨r, rs⟩
    · have ht : countOccsL pat t = 0 := by
        rw [← ih, hr]
        rfl
      by_cases hpc : p c = true
      · rw [if_pos hpc, countOccsL_nil, countOccsL_cons, ht]
        have hpf : isPre pat (c :: t) = false := by
          have := isPre_dropWhileEndL p (c :: t) pat hlast
          rw [dropWhileEndL, hr, if_pos hpc] at this
          rw [← this]
          cases pat with
          | nil => exact absurd rfl hne
          | cons a as => rfl
        rw [hpf, if_neg (by simp)]
      · rw [if_neg hpc, countOccsL_cons, countOccsL_cons, ht, countOccsL_nil]
        have hpf : isPre pat [c] = isPre pat (c :: t) := by
          have := isPre_dropWhileEndL p (c :: t) pat hlast
          rw [dropWhileEndL, hr, if_neg hpc] at this
          exact this
        rw [hpf]
    · have h2 := ih
      rw [hr] at h2
      have hpf : isPre pat (c :: r :: rs) = isPre pat (c :: t) := by
        have := isPre_dropWhileEndL p (c :: t) pat hlast
        rw [dropWhileEndL, hr] at this
        exact this
      rw [countOccsL_cons pat c (r :: rs), countOccsL_cons pat c t, h2, hpf]

theorem countOccs_pyStrip (pat s : String) (c : Char) (rest : List Char)
    (hp : pat.data = c :: rest) (hc : isPyWs c = false)
    (hlast : ∀ a, pat.data.getLast? = some a → isPyWs a = false) :
    countOccs pat (pyStrip s) = countOccs pat s := by
  show countOccsL pat.data (dropWhileEndL isPyWs (s.data.dropWhile isPyWs))
      = countOccsL pat.data s.data
  rw [countOccsL_dropWhileEndL isPyWs pat.data (by rw [hp]; exact List.cons_ne_nil c rest) hlast,
    hp, countOccsL_dropWhile isPyWs c rest hc]

theorem countOccs_concat_single (pat A B : String) (c : Char) (rest : List Char)
    (hp : pat.data = c :: rest) (hA : c ∉ A.data) (hB : c ∉ B.data) (hr : c ∉ rest) :
    countOccs pat (A ++ (pat ++ B)) = 1 := by
  show countOccsL pat.data (A ++ (pat ++ B)).data = 1
  rw [String.data_append, String.data_append, hp]
  exact countOccsL_single c rest A.data B.data hA hB hr

theorem countOccs_concat_ge_one (pat A B : String) (c : Char) (rest : List Char)
    (hp : pat.data = c :: rest) :
    1 ≤ countOccs pat (A ++ (pat ++ B)) := by
  show 1 ≤ countOccsL pat.data (A ++ (pat ++ B)).data
  rw [String.data_append, String.data_append, hp]
  exact countOccsL_ge_one c rest B.data A.data

theorem countOccs_zero_of_not_mem (pat s : String) (c : Char) (rest : List Char)
    (hp : pat.data = c :: rest) (hs : c ∉ s.data) :
    countOccs pat s = 0 := by
  show countOccsL pat.data s.data = 0
  rw [hp]
  exact countOccsL_zero_of_not_mem c rest s.data hs

/-! ### Window Estimator claims -/

/-- Claim C5: the Window Estimator decomposes a computed difference into days,
hours, minutes and seconds and joins exactly the non-zero components with
single spaces in that order; 90 seconds gives "1m 30s" and an all-zero
decomposition gives "1d". -/
theorem c5_window_estimator_format :
    extract_dt (some 90) = some "1m 30s" ∧ extract_dt (some 0) = some "1d" ∧
    ∀ n : Nat, extract_dt (some n) = some (windowSpecFormat n) := by
  refine ⟨by decide, by decide, ?_⟩
  intro n
  rcases eq_or_ne (n / 86400) 0 with h1 | h1 <;>
    rcases eq_or_ne (n % 86400 / 3600) 0 with h2 | h2 <;>
      rcases eq_or_ne (n % 86400 % 3600 / 60) 0 with h3 | h3 <;>
        rcases eq_or_ne (n % 86400 % 60) 0 with h4 | h4 <;>
          simp [extract_dt, windowSpecFormat, List.filter_cons, h1, h2, h3, h4,
            bne_iff_ne, Nat.pos_iff_ne_zero, List.isEmpty]

/-- Claim C4 (counterexample): with fewer than two rows the difference query
returns no row, and `extract_dt` then returns the absent value, not "1d". -/
theorem c4_under_two_rows_not_one_day : ¬ (extract_dt none = some "1d") := by
  decide

/-- Claim C4 (amended): with fewer than two rows the Window Estimator returns
the absent value `None`; the "1d" fallback is produced only when a difference
was computed and all of its components are zero. -/
theorem c4_under_two_rows_returns_none :
    extract_dt none = none ∧ extract_dt (some 0) = some "1d" := by
  exact ⟨rfl, by decide⟩

/-! ### Skip-signal claim -/

/-- Claim C2: with an empty dimension-column list (whether passed as Python
`None` or as `[]`, i.e. a base column list of exactly two columns), both the
per-segment count generator and the multi-dimension bar generator return the
explicit skip signal `None`. -/
theorem c2_no_dimensions_skip (base_query time_column value_column dt : String) :
    generate_anomaly_count_per_segment_query base_query [time_column, value_column]
        none dt = none ∧
    generate_anomaly_count_per_segment_query base_query [time_column, value_column]
        (some []) dt = none ∧
    generate_dimension_anomaly_barchart base_query [time_column, value_column]
        none dt = none ∧
    generate_dimension_anomaly_barchart base_query [time_column, value_column]
        (some []) dt = none :=
  ⟨rfl, rfl, rfl, rfl⟩

/-! ### Panel Planner claims -/

/-- Claim C1: the full emission of the Panel Planner for discovered columns
[Timestamp, Latency, Region, Host]: the exact ordered list of rows and panels
(titles, visualization types, repeat bindings), the templating variables
(threshold textbox, then one query variable per dimension), and the first two
panels being the unfiltered (no-dimension) decomposition and anomalies
queries. -/
theorem c1_panel_planner_end_to_end (base_query datasource_name dt : String) :
    (main_plan base_query ["Timestamp", "Latency", "Region", "Host"] datasource_name dt).map
        (fun p => p.2.map (fun q => (q.title, q.qtype, q.repeat_)))
      = some [("Time Series Plot", "row", none),
          ("Series Decomposition", "timeseries", none),
          ("Anomalies", "timeseries", none),
          ("Anomalies Count Per Dimension", "row", none),
          ("Anomalies Per Dimension", "barchart", none),
          ("Anomalies Count", "row", none),
          ("Anomalies Count by Region", "barchart", none),
          ("Anomalies Count by Host", "barchart", none),
          ("Anomalies Count Per Segment", "row", none),
          ("Anomaly Count per Segment by Region, Host", "table", none),
          ("Anomalies Score", "row", none),
          ("Region - $\x7bRegion\x7d", "timeseries", some "Region"),
          ("Host - $\x7bHost\x7d", "timeseries", some "Host"),
          ("Series Decomposition", "row", none),
          ("Region - $\x7bRegion\x7d", "timeseries", some "Region"),
          ("Host - $\x7bHost\x7d", "timeseries", some "Host")] ∧
    (main_plan base_query ["Timestamp", "Latency", "Region", "Host"] datasource_name dt).map
        (fun p => p.1.map (fun v => (v.name, v.vtype)))
      = some [("AnomalyThreshold", "textbox"), ("Region", "query"), ("Host", "query")] ∧
    (main_plan base_query ["Timestamp", "Latency", "Region", "Host"] datasource_name dt).map
        (fun p => (p.2.map QT.query).take 3)
      = some [none,
          some (generate_series_decomposition_query base_query ["Timestamp", "Latency"] none dt),
          some (generate_series_decompose_anomalies_query base_query
            ["Timestamp", "Latency"] none dt)] := by
  refine ⟨rfl, rfl, rfl⟩

/-- Helper: the row separators of the planner output are always exactly the six
fixed rows, in order, whatever the dimension list is. -/
theorem plan_rows_titles (base_query : String) (columns dimension_columns : List String)
    (dt : String) :
    ((plan_queries_and_titles base_query columns dimension_columns dt).filter
        (fun q => q.qtype == "row")).map (fun q => q.title)
      = ["Time Series Plot", "Anomalies Count Per Dimension", "Anomalies Count",
         "Anomalies Count Per Segment", "Anomalies Score", "Series Decomposition"] := by
  rcases hbar : generate_dimension_anomaly_barchart base_query columns
      (some dimension_columns) dt with _ | qbar <;>
    rcases hseg : generate_anomaly_count_per_segment_query base_query columns
        (some dimension_columns) dt with _ | qseg <;>
      simp [plan_queries_and_titles, add_row, hbar, hseg, List.filter_append,
        List.filter_map, Function.comp_def, List.filter_cons]

/-- Claim C8: for every valid input (at least two discovered columns) the
planner emits all six row separators unconditionally, and with zero dimension
columns the output is exactly the six rows with the two unfiltered panels
under the first row and nothing under the last four rows. -/
theorem c8_rows_always_emitted (base_query datasource_name dt : String)
    (all_columns : List String) (h2 : 2 ≤ all_columns.length) :
    (main_plan base_query all_columns datasource_name dt).map
        (fun p => (p.2.filter (fun q => q.qtype == "row")).map (fun q => q.title))
      = some ["Time Series Plot", "Anomalies Count Per Dimension", "Anomalies Count",
          "Anomalies Count Per Segment", "Anomalies Score", "Series Decomposition"] ∧
    (all_columns.length = 2 →
      (main_plan base_query all_columns datasource_name dt).map
          (fun p => p.2.map (fun q => (q.title, q.qtype)))
        = some [("Time Series Plot", "row"), ("Series Decomposition", "timeseries"),
            ("Anomalies", "timeseries"), ("Anomalies Count Per Dimension", "row"),
            ("Anomalies Count", "row"), ("Anomalies Count Per Segment", "row"),
            ("Anomalies Score", "row"), ("Series Decomposition", "row")]) := by
  constructor
  · rw [main_plan, if_neg (by omega)]
    simp only [Option.map_some']
    rw [plan_rows_titles]
  · intro hl
    rcases all_columns with _ | ⟨a, as⟩
    · simp at hl
    · rcases as with _ | ⟨b, bs⟩
      · simp at hl
      · rcases bs with _ | ⟨c, cs⟩
        · rfl
        · simp at hl

/-- Helper: the repeat-bound entries of the planner output are exactly the
per-dimension anomalies panels followed by the per-dimension decomposition
panels, in dimension order, each bound to its dimension and carrying the
placeholder title. -/
theorem plan_repeat_panels (base_query : String) (columns dimension_columns : List String)
    (dt : String) :
    ((plan_queries_and_titles base_query columns dimension_columns dt).filter
        (fun q => q.repeat_.isSome)).map (fun q => (q.title, q.repeat_))
      = (dimension_columns.map (fun d => (d ++ " - $\x7b" ++ d ++ "\x7d",
            some d))) ++
        (dimension_columns.map (fun d => (d ++ " - $\x7b" ++ d ++ "\x7d",
            some d))) := by
  rcases hbar : generate_dimension_anomaly_barchart base_query columns
      (some dimension_columns) dt with _ | qbar <;>
    rcases hseg : generate_anomaly_count_per_segment_query base_query columns
        (some dimension_columns) dt with _ | qseg <;>
      simp [plan_queries_and_titles, add_row, hbar, hseg, List.filter_append,
        List.filter_map, Function.comp_def, List.filter_cons, List.map_map]

/-- Claim C10: every repeat-bound panel the planner emits is bound to one of
the dimension columns `d`, is a timeseries panel, and carries the literal
placeholder title `d - $\x7bd\x7d`; and the repeat-bound panels are exactly the
per-dimension block under "Anomalies Score" followed by the per-dimension
block under "Series Decomposition". -/
theorem c10_repeat_bound_panels (base_query dt d : String)
    (columns dimension_columns : List String) (q : QT)
    (hq : q ∈ plan_queries_and_titles base_query columns dimension_columns dt)
    (hr : q.repeat_ = some d) :
    (d ∈ dimension_columns ∧ q.title = d ++ " - $\x7b" ++ d ++ "\x7d" ∧
      q.qtype = "timeseries") ∧
    ((plan_queries_and_titles base_query columns dimension_columns dt).filter
        (fun q' => q'.repeat_.isSome)).map (fun q' => (q'.title, q'.repeat_))
      = (dimension_columns.map (fun d' => (d' ++ " - $\x7b" ++ d' ++ "\x7d",
            some d'))) ++
        (dimension_columns.map (fun d' => (d' ++ " - $\x7b" ++ d' ++ "\x7d",
            some d'))) := by
  refine ⟨?_, plan_repeat_panels base_query columns dimension_columns dt⟩
  rcases hbar : generate_dimension_anomaly_barchart base_query columns
      (some dimension_columns) dt with _ | qbar
  · rcases hseg : generate_anomaly_count_per_segment_query base_query columns
        (some dimension_columns) dt with _ | qseg
    · simp only [plan_queries_and_titles, add_row, hbar, hseg, List.append_assoc,
        List.cons_append, List.nil_append, List.mem_append, List.mem_cons,
        List.mem_singleton, List.mem_map, List.not_mem_nil, or_false, false_or] at hq
      rcases hq with rfl | rfl | rfl | rfl | rfl | ⟨d', hd', rfl⟩ | rfl | rfl |
          ⟨d', hd', rfl⟩ | rfl | ⟨d', hd', rfl⟩ <;>
        first
          | (obtain rfl : d' = d := by simpa using hr
             exact ⟨hd', rfl, rfl⟩)
          | simp at hr
    · simp only [plan_queries_and_titles, add_row, hbar, hseg, List.append_assoc,
        List.cons_append, List.nil_append, List.mem_append, List.mem_cons,
        List.mem_singleton, List.mem_map, List.not_mem_nil, or_false, false_or] at hq
      rcases hq with rfl | rfl | rfl | rfl | rfl | ⟨d', hd', rfl⟩ | rfl | rfl | rfl |
          ⟨d', hd', rfl⟩ | rfl | ⟨d', hd', rfl⟩ <;>
        first
          | (obtain rfl : d' = d := by simpa using hr
             exact ⟨hd', rfl, rfl⟩)
          | simp at hr
  · rcases hseg : generate_anomaly_count_per_segment_query base_query columns
        (some dimension_columns) dt with _ | qseg
    · simp only [plan_queries_and_titles, add_row, hbar, hseg, List.append_assoc,
        List.cons_append, List.nil_append, List.mem_append, List.mem_cons,
        List.mem_singleton, List.mem_map, List.not_mem_nil, or_false, false_or] at hq
      rcases hq with rfl | rfl | rfl | rfl | rfl | rfl | ⟨d', hd', rfl⟩ | rfl | rfl |
          ⟨d', hd', rfl⟩ | rfl | ⟨d', hd', rfl⟩ <;>
        first
          | (obtain rfl : d' = d := by simpa using hr
             exact ⟨hd', rfl, rfl⟩)
          | simp at hr
    · simp only [plan_queries_and_titles, add_row, hbar, hseg, List.append_assoc,
        List.cons_append, List.nil_append, List.mem_append, List.mem_cons,
        List.mem_singleton, List.mem_map, List.not_mem_nil, or_false, false_or] at hq
      rcases hq with rfl | rfl | rfl | rfl | rfl | rfl | ⟨d', hd', rfl⟩ | rfl | rfl | rfl |
          ⟨d', hd', rfl⟩ | rfl | ⟨d', hd', rfl⟩ <;>
        first
          | (obtain rfl : d' = d := by simpa using hr
             exact ⟨hd', rfl, rfl⟩)
          | simp at hr

/-! ### Dashboard Assembler layout claim -/

/-- Layout invariant of the panel-assembly loop, generalized over the starting
panel id and vertical position. -/
theorem build_panels_get (items : List QT) : ∀ (pid y0 i : Nat)
    (hi : i < (build_panels items pid y0).length),
    (build_panels items pid y0)[i].id = pid + i ∧
    (build_panels items pid y0)[i].w = 24 ∧
    (build_panels items pid y0)[i].x = 0 ∧
    (build_panels items pid y0)[i].h =
      (if (build_panels items pid y0)[i].ptype = "row" then 1 else 8) ∧
    (build_panels items pid y0)[i].y =
      y0 + (((build_panels items pid y0).take i).map Panel.h).sum := by
  induction items with
  | nil => intro pid y0 i hi; simp [build_panels] at hi
  | cons item rest ih =>
    intro pid y0 i hi
    by_cases hrow : (item.qtype == "row") = true
    · simp only [build_panels.eq_2, if_pos hrow] at hi ⊢
      rcases i with _ | i'
      · refine ⟨by simp, rfl, rfl, by simp, by simp⟩
      · have hi' : i' < (build_panels rest (pid + 1) (y0 + 1)).length := by
          simp only [List.length_cons] at hi
          omega
        have h := ih (pid + 1) (y0 + 1) i' hi'
        refine ⟨?_, ?_, ?_, ?_, ?_⟩
        · rw [List.getElem_cons_succ, h.1]; omega
        · rw [List.getElem_cons_succ]; exact h.2.1
        · rw [List.getElem_cons_succ]; exact h.2.2.1
        · rw [List.getElem_cons_succ]; exact h.2.2.2.1
        · rw [List.getElem_cons_succ, List.take_succ_cons, List.map_cons, List.sum_cons,
            h.2.2.2.2]
          dsimp only
          omega
    · simp only [build_panels.eq_2, if_neg hrow] at hi ⊢
      have hne : item.qtype ≠ "row" := by simpa using hrow
      rcases i with _ | i'
      · refine ⟨by simp, rfl, rfl, by simp [hne], by simp⟩
      · have hi' : i' < (build_panels rest (pid + 1) (y0 + 8)).length := by
          simp only [List.length_cons] at hi
          omega
        have h := ih (pid + 1) (y0 + 8) i' hi'
        refine ⟨?_, ?_, ?_, ?_, ?_⟩
        · rw [List.getElem_cons_succ, h.1]; omega
        · rw [List.getElem_cons_succ]; exact h.2.1
        · rw [List.getElem_cons_succ]; exact h.2.2.1
        · rw [List.getElem_cons_succ]; exact h.2.2.2.1
        · rw [List.getElem_cons_succ, List.take_succ_cons, List.map_cons, List.sum_cons,
            h.2.2.2.2]
          dsimp only
          omega

/-- Claim C7: the assembled dashboard places panels full-width (w = 24 at
x = 0) top-to-bottom in emission order, row separators with height 1 and all
other panels with height 8; each panel's vertical position is the sum of the
heights of all preceding panels, and panel ids are assigned consecutively from
1 in emission order. -/
theorem c7_dashboard_layout (items : List QT) (i : Nat)
    (hi : i < (create_dashboard_panels items).length) :
    (create_dashboard_panels items)[i].id = i + 1 ∧
    (create_dashboard_panels items)[i].w = 24 ∧
    (create_dashboard_panels items)[i].x = 0 ∧
    (create_dashboard_panels items)[i].h =
      (if (create_dashboard_panels items)[i].ptype = "row" then 1 else 8) ∧
    (create_dashboard_panels items)[i].y =
      (((create_dashboard_panels items).take i).map Panel.h).sum := by
  have hi' : i < (build_panels items 1 0).length := hi
  obtain ⟨h1, h2, h3, h4, h5⟩ := build_panels_get items 1 0 i hi'
  refine ⟨?_, h2, h3, h4, ?_⟩
  · show (build_panels items 1 0)[i].id = i + 1
    omega
  · show (build_panels items 1 0)[i].y =
      (((build_panels items 1 0).take i).map Panel.h).sum
    omega

/-- A small concrete panel-descriptor list used to witness the layout claim. -/
def layout_demo_items : List QT :=
  [{ query := none, title := "Row A", qtype := "row", repeat_ := none, collapsed := false },
   { query := some "q1", title := "P1", qtype := "timeseries", repeat_ := none,
     collapsed := false },
   { query := some "q2", title := "P2", qtype := "table", repeat_ := some "Region",
     collapsed := false }]

/-- Witness for C7 at a concrete descriptor list and index. -/
theorem c7_dashboard_layout_witness :
    2 < (create_dashboard_panels layout_demo_items).length ∧
    ((create_dashboard_panels layout_demo_items).get ⟨2, by decide⟩).id = 2 + 1 ∧
    ((create_dashboard_panels layout_demo_items).get ⟨2, by decide⟩).w = 24 ∧
    ((create_dashboard_panels layout_demo_items).get ⟨2, by decide⟩).x = 0 ∧
    ((create_dashboard_panels layout_demo_items).get ⟨2, by decide⟩).h =
      (if ((create_dashboard_panels layout_demo_items).get ⟨2, by decide⟩).ptype = "row"
        then 1 else 8) ∧
    ((create_dashboard_panels layout_demo_items).get ⟨2, by decide⟩).y =
      (((create_dashboard_panels layout_demo_items).take 2).map Panel.h).sum :=
  ⟨by decide, c7_dashboard_layout layout_demo_items 2 (by decide)⟩

/-- Witness for C8 at a concrete two-column input. -/
theorem c8_rows_always_emitted_witness :
    2 ≤ (["Timestamp", "Latency"] : List String).length ∧
    ((main_plan "T" ["Timestamp", "Latency"] "ds" "1d").map
        (fun p => (p.2.filter (fun q => q.qtype == "row")).map (fun q => q.title))
      = some ["Time Series Plot", "Anomalies Count Per Dimension", "Anomalies Count",
          "Anomalies Count Per Segment", "Anomalies Score", "Series Decomposition"] ∧
    ((["Timestamp", "Latency"] : List String).length = 2 →
      (main_plan "T" ["Timestamp", "Latency"] "ds" "1d").map
          (fun p => p.2.map (fun q => (q.title, q.qtype)))
        = some [("Time Series Plot", "row"), ("Series Decomposition", "timeseries"),
            ("Anomalies", "timeseries"), ("Anomalies Count Per Dimension", "row"),
            ("Anomalies Count", "row"), ("Anomalies Count Per Segment", "row"),
            ("Anomalies Score", "row"), ("Series Decomposition", "row")])) :=
  ⟨by decide, c8_rows_always_emitted "T" "ds" "1d" ["Timestamp", "Latency"] (by decide)⟩

/-- A concrete repeat-bound panel used to witness C10: the anomalies panel the
planner emits for dimension Region under the "Anomalies Score" row. -/
def c10_demo_q : QT :=
  { query := some (generate_series_decompose_anomalies_query "T" ["ts", "val"]
      (some "Region") "1d"),
    title := "Region - $\x7bRegion\x7d", qtype := "timeseries",
    repeat_ := some "Region", collapsed := false }

set_option maxRecDepth 100000 in
/-- Witness for C10 at a concrete input. -/
theorem c10_repeat_bound_panels_witness :
    c10_demo_q ∈ plan_queries_and_titles "T" ["ts", "val"] ["Region"] "1d" ∧
    c10_demo_q.repeat_ = some "Region" ∧
    ((("Region" ∈ ["Region"]) ∧
        c10_demo_q.title = "Region" ++ " - $\x7b" ++ "Region" ++ "\x7d" ∧
        c10_demo_q.qtype = "timeseries") ∧
      ((plan_queries_and_titles "T" ["ts", "val"] ["Region"] "1d").filter
          (fun q' => q'.repeat_.isSome)).map (fun q' => (q'.title, q'.repeat_))
        = ((["Region"] : List String).map
              (fun d' => (d' ++ " - $\x7b" ++ d' ++ "\x7d", some d'))) ++
          ((["Region"] : List String).map
              (fun d' => (d' ++ " - $\x7b" ++ d' ++ "\x7d", some d')))) :=
  ⟨by decide, rfl,
    c10_repeat_bound_panels "T" "1d" "Region" ["ts", "val"] ["Region"] c10_demo_q
      (by decide) rfl⟩

/-! ### Dashboard identifier claims -/

theorem dash_not_word : isWordChar '-' = false := by decide

theorem collapse_aux_head_word :
    ∀ (l : List Char) (c : Char),
      (collapse_aux l true).head? = some c → isWordChar c = true := by
  intro l
  induction l with
  | nil => intro c h; cases h
  | cons a t ih =>
    intro c h
    by_cases hw : isWordChar a = true
    · rw [collapse_aux.eq_2, if_pos hw] at h
      simp only [List.head?_cons, Option.some.injEq] at h
      exact h ▸ hw
    · rw [collapse_aux.eq_2, if_neg hw, if_pos rfl] at h
      exact ih c h

theorem collapse_aux_no_ddash :
    ∀ (l : List Char) (b : Bool), countOccsL ['-', '-'] (collapse_aux l b) = 0 := by
  intro l
  induction l with
  | nil => intro b; rfl
  | cons a t ih =>
    intro b
    by_cases hw : isWordChar a = true
    · have hne : ('-' : Char) ≠ a := by
        intro h
        rw [← h, dash_not_word] at hw
        cases hw
      rw [collapse_aux.eq_2, if_pos hw, countOccsL_cons,
        isPre_cons_false_of_ne '-' ['-'] a _ hne, if_neg (by simp), ih false]
    · rw [collapse_aux.eq_2, if_neg hw]
      cases b with
      | true => rw [if_pos rfl]; exact ih true
      | false =>
        rw [if_neg (by simp), countOccsL_cons, ih true]
        have hpf : isPre ['-', '-'] ('-' :: collapse_aux t true) = false := by
          rw [isPre_cons_cons]
          rcases hx : collapse_aux t true with _ | ⟨c, cs⟩
          · simp [isPre]
          · have hc := collapse_aux_head_word t c (by rw [hx]; rfl)
            have hne : ('-' == c) = false := by
              apply beq_eq_false_iff_ne.mpr
              intro h
              rw [← h, dash_not_word] at hc
              cases hc
            rw [isPre_cons_cons, hne]
            simp
        rw [hpf, if_neg (by simp)]

theorem mem_collapse_aux :
    ∀ (l : List Char) (b : Bool) (x : Char), x ∈ collapse_aux l b →
      x = '-' ∨ (isWordChar x = true ∧ x ∈ l) := by
  intro l
  induction l with
  | nil => intro b x h; cases h
  | cons a t ih =>
    intro b x h
    by_cases hw : isWordChar a = true
    · rw [collapse_aux.eq_2, if_pos hw] at h
      rcases List.mem_cons.mp h with rfl | h'
      · exact Or.inr ⟨hw, List.mem_cons_self x t⟩
      · rcases ih false x h' with h1 | ⟨h2, h3⟩
        · exact Or.inl h1
        · exact Or.inr ⟨h2, List.mem_cons_of_mem a h3⟩
    · rw [collapse_aux.eq_2, if_neg hw] at h
      cases b with
      | true =>
        rw [if_pos rfl] at h
        rcases ih true x h with h1 | ⟨h2, h3⟩
        · exact Or.inl h1
        · exact Or.inr ⟨h2, List.mem_cons_of_mem a h3⟩
      | false =>
        rw [if_neg (by simp)] at h
        rcases List.mem_cons.mp h with rfl | h'
        · exact Or.inl rfl
        · rcases ih true x h' with h1 | ⟨h2, h3⟩
          · exact Or.inl h1
          · exact Or.inr ⟨h2, List.mem_cons_of_mem a h3⟩

theorem dropWhile_exists_pre (p : Char → Bool) :
    ∀ (l : List Char), ∃ pre, l = pre ++ l.dropWhile p := by
  intro l
  induction l with
  | nil => exact ⟨[], rfl⟩
  | cons a t ih =>
    by_cases hpa : p a = true
    · obtain ⟨pre, hpre⟩ := ih
      refine ⟨a :: pre, ?_⟩
      rw [List.dropWhile_cons, if_pos hpa, List.cons_append, ← hpre]
    · refine ⟨[], ?_⟩
      rw [List.dropWhile_cons, if_neg hpa, List.nil_append]

theorem dropWhileEndL_exists_suf (p : Char → Bool) :
    ∀ (l : List Char), ∃ suf, l = dropWhileEndL p l ++ suf := by
  intro l
  induction l with
  | nil => exact ⟨[], rfl⟩
  | cons c t ih =>
    rw [dropWhileEndL]
    rcases hr : dropWhileEndL p t with _ | ⟨r, rs⟩
    · by_cases hpc : p c = true
      · rw [if_pos hpc]
        exact ⟨c :: t, rfl⟩
      · rw [if_neg hpc]
        exact ⟨t, rfl⟩
    · obtain ⟨suf, hsuf⟩ := ih
      rw [hr] at hsuf
      refine ⟨suf, ?_⟩
      rw [List.cons_append, ← hsuf]

theorem mem_dropWhile_sub (p : Char → Bool) (l : List Char) (x : Char)
    (h : x ∈ l.dropWhile p) : x ∈ l := by
  obtain ⟨pre, hpre⟩ := dropWhile_exists_pre p l
  rw [hpre]
  exact List.mem_append_right pre h

theorem mem_dropWhileEndL_sub (p : Char → Bool) (l : List Char) (x : Char)
    (h : x ∈ dropWhileEndL p l) : x ∈ l := by
  obtain ⟨suf, hsuf⟩ := dropWhileEndL_exists_suf p l
  rw [hsuf]
  exact List.mem_append_left suf h

theorem countOccsL_le_append_right (pat : List Char) :
    ∀ (x y : List Char), countOccsL pat y ≤ countOccsL pat (x ++ y) := by
  intro x y
  induction x with
  | nil => rw [List.nil_append]
  | cons a t ih =>
    rw [List.cons_append, countOccsL_cons]
    omega

theorem countOccsL_le_append_left (pat : List Char) :
    ∀ (x y : List Char), countOccsL pat x ≤ countOccsL pat (x ++ y) := by
  intro x y
  induction x with
  | nil => rw [countOccsL_nil]; exact Nat.zero_le _
  | cons a t ih =>
    rw [List.cons_append, countOccsL_cons, countOccsL_cons]
    have hmono : (if isPre pat (a :: t) then 1 else 0)
        ≤ (if isPre pat (a :: (t ++ y)) then (1 : Nat) else 0) := by
      by_cases hp : isPre pat (a :: t) = true
      · have h2 := isPre_append_extend pat (a :: t) y hp
        rw [List.cons_append] at h2
        rw [if_pos hp, if_pos h2]
      · rw [if_neg hp]
        exact Nat.zero_le _
    omega

theorem countOccsL_le_dropWhile (p : Char → Bool) (pat l : List Char) :
    countOccsL pat (l.dropWhile p) ≤ countOccsL pat l := by
  obtain ⟨pre, hpre⟩ := dropWhile_exists_pre p l
  have h := countOccsL_le_append_right pat pre (l.dropWhile p)
  rw [← hpre] at h
  exact h

theorem countOccsL_le_dropWhileEndL (p : Char → Bool) (pat l : List Char) :
    countOccsL pat (dropWhileEndL p l) ≤ countOccsL pat l := by
  obtain ⟨suf, hsuf⟩ := dropWhileEndL_exists_suf p l
  have h := countOccsL_le_append_left pat (dropWhileEndL p l) suf
  rw [← hsuf] at h
  exact h

theorem head?_dropWhile_not (p : Char → Bool) :
    ∀ (l : List Char) (a : Char), (l.dropWhile p).head? = some a → p a = false := by
  intro l
  induction l with
  | nil => intro a h; cases h
  | cons c t ih =>
    intro a h
    by_cases hpc : p c = true
    · rw [List.dropWhile_cons, if_pos hpc] at h
      exact ih a h
    · rw [List.dropWhile_cons, if_neg hpc] at h
      simp only [List.head?_cons, Option.some.injEq] at h
      rcases hv : p c with _ | _
      · rw [← h]; exact hv
      · exact absurd hv hpc

theorem dropWhileEndL_head?_cases (p : Char → Bool) :
    ∀ (l : List Char), dropWhileEndL p l = [] ∨ (dropWhileEndL p l).head? = l.head? := by
  intro l
  induction l with
  | nil => exact Or.inl rfl
  | cons c t _ =>
    rw [dropWhileEndL]
    rcases hr : dropWhileEndL p t with _ | ⟨r, rs⟩
    · by_cases hpc : p c = true
      · rw [if_pos hpc]
        exact Or.inl rfl
      · rw [if_neg hpc]
        exact Or.inr rfl
    · exact Or.inr rfl

theorem dropWhileEndL_getLast?_not (p : Char → Bool) :
    ∀ (l : List Char) (a : Char), (dropWhileEndL p l).getLast? = some a → p a = false := by
  intro l
  induction l with
  | nil => intro a h; cases h
  | cons c t ih =>
    intro a h
    rw [dropWhileEndL] at h
    rcases hr : dropWhileEndL p t with _ | ⟨r, rs⟩
    · rw [hr] at h
      by_cases hpc : p c = true
      · rw [if_pos hpc] at h
        cases h
      · rw [if_neg hpc] at h
        simp only [List.getLast?_singleton, Option.some.injEq] at h
        rcases hv : p c with _ | _
        · rw [← h]; exact hv
        · exact absurd hv hpc
    · rw [hr, List.getLast?_cons_cons] at h
      apply ih
      rw [hr]
      exact h

/-- Claim C6: the dashboard identifier is the title lower-cased with every
maximal run of non-word characters collapsed to a single separator and no
leading or trailing separator: "Orders Table!!" maps to "orders-table"; the
result never contains two adjacent separators, never starts or ends with one,
and every character of it is either the separator or a word character taken
from the lower-cased title. -/
theorem c6_dashboard_uid_derivation (dashboard_title : String) (c : Char)
    (hc : c ∈ (dashboard_uid dashboard_title).data) :
    dashboard_uid "Orders Table!!" = "orders-table" ∧
    countOccs "--" (dashboard_uid dashboard_title) = 0 ∧
    (dashboard_uid dashboard_title).data.head? ≠ some '-' ∧
    (dashboard_uid dashboard_title).data.getLast? ≠ some '-' ∧
    (c = '-' ∨ (isWordChar c = true ∧ c ∈ dashboard_title.data.map Char.toLower)) := by
  refine ⟨by decide, ?_, ?_, ?_, ?_⟩
  · show countOccsL ("--".data)
      (dropWhileEndL (fun x => x == '-')
        ((collapse_aux (dashboard_title.data.map Char.toLower) false).dropWhile
          (fun x => x == '-'))) = 0
    have h1 : ("--" : String).data = ['-', '-'] := rfl
    rw [h1]
    have h2 := countOccsL_le_dropWhileEndL (fun x => x == '-') ['-', '-']
      ((collapse_aux (dashboard_title.data.map Char.toLower) false).dropWhile
        (fun x => x == '-'))
    have h3 := countOccsL_le_dropWhile (fun x => x == '-') ['-', '-']
      (collapse_aux (dashboard_title.data.map Char.toLower) false)
    have h4 := collapse_aux_no_ddash (dashboard_title.data.map Char.toLower) false
    omega
  · intro h
    have h' : (dropWhileEndL (fun x => x == '-')
        ((collapse_aux (dashboard_title.data.map Char.toLower) false).dropWhile
          (fun x => x == '-'))).head? = some '-' := h
    rcases dropWhileEndL_head?_cases (fun x => x == '-')
        ((collapse_aux (dashboard_title.data.map Char.toLower) false).dropWhile
          (fun x => x == '-')) with hnil | hh
    · rw [hnil] at h'
      cases h'
    · rw [hh] at h'
      have := head?_dropWhile_not (fun x => x == '-')
        (collapse_aux (dashboard_title.data.map Char.toLower) false) '-' h'
      simp at this
  · intro h
    have h' : (dropWhileEndL (fun x => x == '-')
        ((collapse_aux (dashboard_title.data.map Char.toLower) false).dropWhile
          (fun x => x == '-'))).getLast? = some '-' := h
    have := dropWhileEndL_getLast?_not (fun x => x == '-')
      ((collapse_aux (dashboard_title.data.map Char.toLower) false).dropWhile
        (fun x => x == '-')) '-' h'
    simp at this
  · have hc' : c ∈ dropWhileEndL (fun x => x == '-')
        ((collapse_aux (dashboard_title.data.map Char.toLower) false).dropWhile
          (fun x => x == '-')) := hc
    have hm1 := mem_dropWhileEndL_sub _ _ _ hc'
    have hm2 := mem_dropWhile_sub _ _ _ hm1
    exact mem_collapse_aux _ false c hm2

/-- Witness for C6 at a concrete title and character. -/
theorem c6_dashboard_uid_derivation_witness :
    'o' ∈ (dashboard_uid "Orders Table!!").data ∧
    (dashboard_uid "Orders Table!!" = "orders-table" ∧
      countOccs "--" (dashboard_uid "Orders Table!!") = 0 ∧
      (dashboard_uid "Orders Table!!").data.head? ≠ some '-' ∧
      (dashboard_uid "Orders Table!!").data.getLast? ≠ some '-' ∧
      ('o' = '-' ∨ (isWordChar 'o' = true ∧
        'o' ∈ ("Orders Table!!" : String).data.map Char.toLower))) :=
  ⟨by decide, c6_dashboard_uid_derivation "Orders Table!!" 'o' (by decide)⟩

theorem countOccsL_le_append_mid (pat x y z : List Char) :
    countOccsL pat (x ++ y) ≤ countOccsL pat (x ++ (y ++ z)) := by
  rw [← List.append_assoc]
  exact countOccsL_le_append_left pat (x ++ y) z

/-! ### The None interpolation claim -/

/-- Claim C9: with no dimension column supplied, both query generators still
interpolate the absent dimension (Python `str(None)`) into the final
let-binding name, so the emitted decomposition query contains the identifier
`decomposed_by_None` and the emitted anomalies query contains
`anomalies_by_None`. -/
theorem c9_none_interpolated_into_binding_names
    (base_query time_column value_column dt : String) :
    1 ≤ countOccs "decomposed_by_None"
        (generate_series_decomposition_query base_query [time_column, value_column]
          none dt) ∧
    1 ≤ countOccs "anomalies_by_None"
        (generate_series_decompose_anomalies_query base_query [time_column, value_column]
          none dt) := by
  have hlast1 : ∀ a, ("decomposed_by_None" : String).data.getLast? = some a →
      isPyWs a = false := by
    intro a ha
    have he : ("decomposed_by_None" : String).data.getLast? = some 'e' := rfl
    rw [he] at ha
    injection ha with h2
    rw [← h2]
    rfl
  have hlast2 : ∀ a, ("anomalies_by_None" : String).data.getLast? = some a →
      isPyWs a = false := by
    intro a ha
    have he : ("anomalies_by_None" : String).data.getLast? = some 'e' := rfl
    rw [he] at ha
    injection ha with h2
    rw [← h2]
    rfl
  constructor
  · simp only [generate_series_decomposition_query, pyStrOpt, pyTruthy,
      List.getD_cons_zero, List.getD_cons_succ, Bool.false_eq_true, if_false]
    rw [countOccs_pyStrip "decomposed_by_None" _ 'd'
      (("ecomposed_by_None" : String).data) rfl rfl hlast1]
    unfold countOccs
    simp only [String.data_append, List.append_assoc]
    refine Nat.le_trans ?_ (countOccsL_le_append_right _ _ _)
    refine Nat.le_trans ?_ (countOccsL_le_append_right _ _ _)
    refine Nat.le_trans ?_ (countOccsL_le_append_right _ _ _)
    refine Nat.le_trans ?_ (countOccsL_le_append_right _ _ _)
    refine Nat.le_trans ?_ (countOccsL_le_append_right _ _ _)
    refine Nat.le_trans ?_ (countOccsL_le_append_right _ _ _)
    refine Nat.le_trans ?_ (countOccsL_le_append_right _ _ _)
    refine Nat.le_trans ?_ (countOccsL_le_append_right _ _ _)
    refine Nat.le_trans ?_ (countOccsL_le_append_right _ _ _)
    refine Nat.le_trans ?_ (countOccsL_le_append_right _ _ _)
    refine Nat.le_trans ?_ (countOccsL_le_append_right _ _ _)
    refine Nat.le_trans ?_ (countOccsL_le_append_right _ _ _)
    refine Nat.le_trans ?_ (countOccsL_le_append_right _ _ _)
    refine Nat.le_trans ?_ (countOccsL_le_append_right _ _ _)
    refine Nat.le_trans ?_ (countOccsL_le_append_right _ _ _)
    refine Nat.le_trans ?_ (countOccsL_le_append_right _ _ _)
    refine Nat.le_trans ?_ (countOccsL_le_append_right _ _ _)
    refine Nat.le_trans ?_ (countOccsL_le_append_right _ _ _)
    refine Nat.le_trans ?_ (countOccsL_le_append_right _ _ _)
    refine Nat.le_trans ?_ (countOccsL_le_append_right _ _ _)
    refine Nat.le_trans ?_ (countOccsL_le_append_right _ _ _)
    refine Nat.le_trans ?_ (countOccsL_le_append_right _ _ _)
    refine Nat.le_trans ?_ (countOccsL_le_append_right _ _ _)
    refine Nat.le_trans ?_ (countOccsL_le_append_right _ _ _)
    refine Nat.le_trans ?_ (countOccsL_le_append_mid _ _ _ _)
    decide
  · simp only [generate_series_decompose_anomalies_query, pyStrOpt, pyTruthy,
      List.getD_cons_zero, List.getD_cons_succ, Bool.false_eq_true, if_false]
    rw [countOccs_pyStrip "anomalies_by_None" _ 'a'
      (("nomalies_by_None" : String).data) rfl rfl hlast2]
    unfold countOccs
    simp only [String.data_append, List.append_assoc]
    refine Nat.le_trans ?_ (countOccsL_le_append_right _ _ _)
    refine Nat.le_trans ?_ (countOccsL_le_append_right _ _ _)
    refine Nat.le_trans ?_ (countOccsL_le_append_right _ _ _)
    refine Nat.le_trans ?_ (countOccsL_le_append_right _ _ _)
    refine Nat.le_trans ?_ (countOccsL_le_append_right _ _ _)
    refine Nat.le_trans ?_ (countOccsL_le_append_right _ _ _)
    refine Nat.le_trans ?_ (countOccsL_le_append_right _ _ _)
    refine Nat.le_trans ?_ (countOccsL_le_append_right _ _ _)
    refine Nat.le_trans ?_ (countOccsL_le_append_right _ _ _)
    refine Nat.le_trans ?_ (countOccsL_le_append_right _ _ _)
    refine Nat.le_trans ?_ (countOccsL_le_append_right _ _ _)
    refine Nat.le_trans ?_ (countOccsL_le_append_right _ _ _)
    refine Nat.le_trans ?_ (countOccsL_le_append_right _ _ _)
    refine Nat.le_trans ?_ (countOccsL_le_append_right _ _ _)
    refine Nat.le_trans ?_ (countOccsL_le_append_right _ _ _)
    refine Nat.le_trans ?_ (countOccsL_le_append_right _ _ _)
    refine Nat.le_trans ?_ (countOccsL_le_append_right _ _ _)
    refine Nat.le_trans ?_ (countOccsL_le_append_right _ _ _)
    refine Nat.le_trans ?_ (countOccsL_le_append_right _ _ _)
    refine Nat.le_trans ?_ (countOccsL_le_append_right _ _ _)
    refine Nat.le_trans ?_ (countOccsL_le_append_right _ _ _)
    refine Nat.le_trans ?_ (countOccsL_le_append_right _ _ _)
    refine Nat.le_trans ?_ (countOccsL_le_append_right _ _ _)
    refine Nat.le_trans ?_ (countOccsL_le_append_right _ _ _)
    refine Nat.le_trans ?_ (countOccsL_le_append_mid _ _ _ _)
    decide

/-! ### Placeholder-token claims -/

set_option maxRecDepth 100000 in
/-- Claim C3 (counterexample): the claim quantifies over every base query, but
a base query that itself contains the token `$\x7bregion\x7d` is interpolated
into the generated query four times, so the token then occurs five times, not
exactly once. -/
theorem c3_placeholder_exactly_once_counterexample :
    countOccs "$\x7bregion\x7d"
        (generate_series_decomposition_query "$\x7bregion\x7d" ["t", "v"]
          (some "region") "1d") ≠ 1 := by
  decide

set_option maxRecDepth 1000000 in
/-- Claim C3 (amended): when the base query, the two columns and the window
string contain no dollar character, the decomposition query generated with
dimension `region` contains the literal token `$\x7bregion\x7d` exactly once
(in the dimension filter clause) and contains it nowhere when no dimension is
passed; and, with no condition on the inputs at all, every anomaly-detection
variant embeds the literal threshold token inside the numeric cast
`todouble("$\x7bAnomalyThreshold\x7d")`. -/
theorem c3_placeholder_tokens (base_query time_column value_column dt : String) :
    (('$' ∉ base_query.data) → ('$' ∉ time_column.data) →
      ('$' ∉ value_column.data) → ('$' ∉ dt.data) →
      countOccs "$\x7bregion\x7d" (generate_series_decomposition_query base_query
          [time_column, value_column] (some "region") dt) = 1 ∧
      countOccs "$\x7bregion\x7d" (generate_series_decomposition_query base_query
          [time_column, value_column] none dt) = 0) ∧
    (∀ dimension_column : Option String,
      1 ≤ countOccs "todouble(\"$\x7bAnomalyThreshold\x7d\")"
        (generate_series_decompose_anomalies_query base_query
          [time_column, value_column] dimension_column dt)) ∧
    (∀ d : String, 1 ≤ countOccs "todouble(\"$\x7bAnomalyThreshold\x7d\")"
        (generate_anomaly_count_bar_chart base_query [time_column, value_column] d dt)) ∧
    (∀ (d : String) (ds : List String),
      (generate_anomaly_count_per_segment_query base_query [time_column, value_column]
          (some (d :: ds)) dt).elim False
        (fun q => 1 ≤ countOccs "todouble(\"$\x7bAnomalyThreshold\x7d\")" q)) ∧
    (∀ (d : String) (ds : List String),
      (generate_dimension_anomaly_barchart base_query [time_column, value_column]
          (some (d :: ds)) dt).elim False
        (fun q => 1 ≤ countOccs "todouble(\"$\x7bAnomalyThreshold\x7d\")" q)) := by
  have hlastReg : ∀ a, ("$\x7bregion\x7d" : String).data.getLast? = some a →
      isPyWs a = false := by
    intro a ha
    have he : ("$\x7bregion\x7d" : String).data.getLast? = some '\x7d' := rfl
    rw [he] at ha
    injection ha with h2
    rw [← h2]
    rfl
  have hlastThr : ∀ a,
      ("todouble(\"$\x7bAnomalyThreshold\x7d\")" : String).data.getLast? = some a →
      isPyWs a = false := by
    intro a ha
    have he : ("todouble(\"$\x7bAnomalyThreshold\x7d\")" : String).data.getLast?
        = some ')' := rfl
    rw [he] at ha
    injection ha with h2
    rw [← h2]
    rfl
  have hreg : (("region" : String) == "") = false := rfl
  refine ⟨fun hbq ht hv hdt => ⟨?_, ?_⟩, ?_, ?_, ?_, ?_⟩
  · simp only [generate_series_decomposition_query, pyStrOpt, pyTruthy,
      List.getD_cons_zero, List.getD_cons_succ, hreg, Bool.not_false, if_true]
    rw [countOccs_pyStrip "$\x7bregion\x7d" _ '$'
      (("\x7bregion\x7d" : String).data) rfl rfl hlastReg]
    unfold countOccs
    rw [show ("$\x7bregion\x7d" : String).data
      = '$' :: ("\x7bregion\x7d" : String).data from rfl]
    simp only [String.data_append, List.append_assoc]
    refine (countOccsL_append_no_head '$' _ _ _ (by decide)).trans ?_
    refine (countOccsL_append_no_head '$' _ _ _ hdt).trans ?_
    refine (countOccsL_append_no_head '$' _ _ _ (by decide)).trans ?_
    refine (countOccsL_append_no_head '$' _ _ _ hbq).trans ?_
    refine (countOccsL_append_no_head '$' _ _ _ (by decide)).trans ?_
    refine (countOccsL_append_no_head '$' _ _ _ ht).trans ?_
    refine (countOccsL_append_no_head '$' _ _ _ (by decide)).trans ?_
    refine (countOccsL_append_no_head '$' _ _ _ hbq).trans ?_
    refine (countOccsL_append_no_head '$' _ _ _ (by decide)).trans ?_
    refine (countOccsL_append_no_head '$' _ _ _ ht).trans ?_
    refine (countOccsL_append_no_head '$' _ _ _ (by decide)).trans ?_
    refine (countOccsL_append_no_head '$' _ _ _ hbq).trans ?_
    refine (countOccsL_append_no_head '$' _ _ _ (by decide)).trans ?_
    refine (countOccsL_append_no_head '$' _ _ _ hv).trans ?_
    refine (countOccsL_append_no_head '$' _ _ _ (by decide)).trans ?_
    refine (countOccsL_append_no_head '$' _ _ _ ht).trans ?_
    refine (countOccsL_append_no_head '$' _ _ _ (by decide)).trans ?_
    refine (countOccsL_append_no_head '$' _ _ _ ht).trans ?_
    refine (countOccsL_append_no_head '$' _ _ _ (by decide)).trans ?_
    refine (countOccsL_append_no_head '$' _ _ _ ht).trans ?_
    refine (countOccsL_append_no_head '$' _ _ _ (by decide)).trans ?_
    refine (countOccsL_append_no_head '$' _ _ _ hbq).trans ?_
    refine (countOccsL_append_no_head '$' _ _ _ (by decide)).trans ?_
    refine (countOccsL_append_no_head '$' _ _ _ ht).trans ?_
    refine (countOccsL_append_no_head '$' _ _ _ (by decide)).trans ?_
    refine (countOccsL_append_no_head '$' _ _ _ (by decide)).trans ?_
    refine (countOccsL_append_no_head '$' _ _ _ (by decide)).trans ?_
    refine (countOccsL_append_no_head '$' _ _ _ ht).trans ?_
    refine (countOccsL_append_no_head '$' _ _ _ (by decide)).trans ?_
    refine (countOccsL_append_no_head '$' _ _ _ hv).trans ?_
    decide
  · simp only [generate_series_decomposition_query, pyStrOpt, pyTruthy,
      List.getD_cons_zero, List.getD_cons_succ, Bool.false_eq_true, if_false]
    rw [countOccs_pyStrip "$\x7bregion\x7d" _ '$'
      (("\x7bregion\x7d" : String).data) rfl rfl hlastReg]
    unfold countOccs
    rw [show ("$\x7bregion\x7d" : String).data
      = '$' :: ("\x7bregion\x7d" : String).data from rfl]
    simp only [String.data_append, List.append_assoc]
    refine (countOccsL_append_no_head '$' _ _ _ (by decide)).trans ?_
    refine (countOccsL_append_no_head '$' _ _ _ hdt).trans ?_
    refine (countOccsL_append_no_head '$' _ _ _ (by decide)).trans ?_
    refine (countOccsL_append_no_head '$' _ _ _ hbq).trans ?_
    refine (countOccsL_append_no_head '$' _ _ _ (by decide)).trans ?_
    refine (countOccsL_append_no_head '$' _ _ _ ht).trans ?_
    refine (countOccsL_append_no_head '$' _ _ _ (by decide)).trans ?_
    refine (countOccsL_append_no_head '$' _ _ _ hbq).trans ?_
    refine (countOccsL_append_no_head '$' _ _ _ (by decide)).trans ?_
    refine (countOccsL_append_no_head '$' _ _ _ ht).trans ?_
    refine (countOccsL_append_no_head '$' _ _ _ (by decide)).trans ?_
    refine (countOccsL_append_no_head '$' _ _ _ hbq).trans ?_
    refine (countOccsL_append_no_head '$' _ _ _ (by decide)).trans ?_
    refine (countOccsL_append_no_head '$' _ _ _ hv).trans ?_
    refine (countOccsL_append_no_head '$' _ _ _ (by decide)).trans ?_
    refine (countOccsL_append_no_head '$' _ _ _ ht).trans ?_
    refine (countOccsL_append_no_head '$' _ _ _ (by decide)).trans ?_
    refine (countOccsL_append_no_head '$' _ _ _ ht).trans ?_
    refine (countOccsL_append_no_head '$' _ _ _ (by decide)).trans ?_
    refine (countOccsL_append_no_head '$' _ _ _ ht).trans ?_
    refine (countOccsL_append_no_head '$' _ _ _ (by decide)).trans ?_
    refine (countOccsL_append_no_head '$' _ _ _ hbq).trans ?_
    refine (countOccsL_append_no_head '$' _ _ _ (by decide)).trans ?_
    refine (countOccsL_append_no_head '$' _ _ _ ht).trans ?_
    refine (countOccsL_append_no_head '$' _ _ _ (by decide)).trans ?_
    refine (countOccsL_append_no_head '$' _ _ _ (by decide)).trans ?_
    refine (countOccsL_append_no_head '$' _ _ _ (by decide)).trans ?_
    refine (countOccsL_append_no_head '$' _ _ _ ht).trans ?_
    refine (countOccsL_append_no_head '$' _ _ _ (by decide)).trans ?_
    refine (countOccsL_append_no_head '$' _ _ _ hv).trans ?_
    decide
  · intro dimension_column
    simp only [generate_series_decompose_anomalies_query,
      List.getD_cons_zero, List.getD_cons_succ]
    rw [countOccs_pyStrip "todouble(\"$\x7bAnomalyThreshold\x7d\")" _ 't'
      (("odouble(\"$\x7bAnomalyThreshold\x7d\")" : String).data) rfl rfl hlastThr]
    unfold countOccs
    simp only [String.data_append, List.append_assoc]
    refine Nat.le_trans ?_ (countOccsL_le_append_right _ _ _)
    refine Nat.le_trans ?_ (countOccsL_le_append_right _ _ _)
    refine Nat.le_trans ?_ (countOccsL_le_append_right _ _ _)
    refine Nat.le_trans ?_ (countOccsL_le_append_right _ _ _)
    refine Nat.le_trans ?_ (countOccsL_le_append_right _ _ _)
    refine Nat.le_trans ?_ (countOccsL_le_append_right _ _ _)
    refine Nat.le_trans ?_ (countOccsL_le_append_right _ _ _)
    refine Nat.le_trans ?_ (countOccsL_le_append_right _ _ _)
    refine Nat.le_trans ?_ (countOccsL_le_append_right _ _ _)
    refine Nat.le_trans ?_ (countOccsL_le_append_right _ _ _)
    refine Nat.le_trans ?_ (countOccsL_le_append_right _ _ _)
    refine Nat.le_trans ?_ (countOccsL_le_append_right _ _ _)
    refine Nat.le_trans ?_ (countOccsL_le_append_right _ _ _)
    refine Nat.le_trans ?_ (countOccsL_le_append_right _ _ _)
    refine Nat.le_trans ?_ (countOccsL_le_append_right _ _ _)
    refine Nat.le_trans ?_ (countOccsL_le_append_right _ _ _)
    refine Nat.le_trans ?_ (countOccsL_le_append_left _ _ _)
    decide
  · intro d
    simp only [generate_anomaly_count_bar_chart,
      List.getD_cons_zero, List.getD_cons_succ]
    rw [countOccs_pyStrip "todouble(\"$\x7bAnomalyThreshold\x7d\")" _ 't'
      (("odouble(\"$\x7bAnomalyThreshold\x7d\")" : String).data) rfl rfl hlastThr]
    unfold countOccs
    simp only [String.data_append, List.append_assoc]
    refine Nat.le_trans ?_ (countOccsL_le_append_right _ _ _)
    refine Nat.le_trans ?_ (countOccsL_le_append_right _ _ _)
    refine Nat.le_trans ?_ (countOccsL_le_append_right _ _ _)
    refine Nat.le_trans ?_ (countOccsL_le_append_right _ _ _)
    refine Nat.le_trans ?_ (countOccsL_le_append_right _ _ _)
    refine Nat.le_trans ?_ (countOccsL_le_append_right _ _ _)
    refine Nat.le_trans ?_ (countOccsL_le_append_right _ _ _)
    refine Nat.le_trans ?_ (countOccsL_le_append_right _ _ _)
    refine Nat.le_trans ?_ (countOccsL_le_append_right _ _ _)
    refine Nat.le_trans ?_ (countOccsL_le_append_right _ _ _)
    refine Nat.le_trans ?_ (countOccsL_le_append_right _ _ _)
    refine Nat.le_trans ?_ (countOccsL_le_append_right _ _ _)
    refine Nat.le_trans ?_ (countOccsL_le_append_right _ _ _)
    refine Nat.le_trans ?_ (countOccsL_le_append_right _ _ _)
    refine Nat.le_trans ?_ (countOccsL_le_append_right _ _ _)
    refine Nat.le_trans ?_ (countOccsL_le_append_right _ _ _)
    refine Nat.le_trans ?_ (countOccsL_le_append_left _ _ _)
    decide
  · intro d ds
    simp only [generate_anomaly_count_per_segment_query, Option.getD,
      List.getD_cons_zero, List.getD_cons_succ, List.isEmpty_cons,
      Bool.false_eq_true, if_false, Option.elim]
    rw [countOccs_pyStrip "todouble(\"$\x7bAnomalyThreshold\x7d\")" _ 't'
      (("odouble(\"$\x7bAnomalyThreshold\x7d\")" : String).data) rfl rfl hlastThr]
    unfold countOccs
    simp only [String.data_append, List.append_assoc]
    refine Nat.le_trans ?_ (countOccsL_le_append_right _ _ _)
    refine Nat.le_trans ?_ (countOccsL_le_append_right _ _ _)
    refine Nat.le_trans ?_ (countOccsL_le_append_right _ _ _)
    refine Nat.le_trans ?_ (countOccsL_le_append_right _ _ _)
    refine Nat.le_trans ?_ (countOccsL_le_append_right _ _ _)
    refine Nat.le_trans ?_ (countOccsL_le_append_right _ _ _)
    refine Nat.le_trans ?_ (countOccsL_le_append_right _ _ _)
    refine Nat.le_trans ?_ (countOccsL_le_append_right _ _ _)
    refine Nat.le_trans ?_ (countOccsL_le_append_right _ _ _)
    refine Nat.le_trans ?_ (countOccsL_le_append_right _ _ _)
    refine Nat.le_trans ?_ (countOccsL_le_append_right _ _ _)
    refine Nat.le_trans ?_ (countOccsL_le_append_right _ _ _)
    refine Nat.le_trans ?_ (countOccsL_le_append_right _ _ _)
    refine Nat.le_trans ?_ (countOccsL_le_append_right _ _ _)
    refine Nat.le_trans ?_ (countOccsL_le_append_right _ _ _)
    refine Nat.le_trans ?_ (countOccsL_le_append_right _ _ _)
    refine Nat.le_trans ?_ (countOccsL_le_append_left _ _ _)
    decide
  · intro d ds
    simp only [generate_dimension_anomaly_barchart, Option.getD,
      List.getD_cons_zero, List.getD_cons_succ, List.isEmpty_cons,
      Bool.false_eq_true, if_false, Option.elim]
    rw [countOccs_pyStrip "todouble(\"$\x7bAnomalyThreshold\x7d\")" _ 't'
      (("odouble(\"$\x7bAnomalyThreshold\x7d\")" : String).data) rfl rfl hlastThr]
    unfold countOccs
    simp only [String.data_append, List.append_assoc]
    refine Nat.le_trans ?_ (countOccsL_le_append_right _ _ _)
    refine Nat.le_trans ?_ (countOccsL_le_append_right _ _ _)
    refine Nat.le_trans ?_ (countOccsL_le_append_right _ _ _)
    refine Nat.le_trans ?_ (countOccsL_le_append_right _ _ _)
    refine Nat.le_trans ?_ (countOccsL_le_append_right _ _ _)
    refine Nat.le_trans ?_ (countOccsL_le_append_right _ _ _)
    refine Nat.le_trans ?_ (countOccsL_le_append_right _ _ _)
    refine Nat.le_trans ?_ (countOccsL_le_append_right _ _ _)
    refine Nat.le_trans ?_ (countOccsL_le_append_right _ _ _)
    refine Nat.le_trans ?_ (countOccsL_le_append_right _ _ _)
    refine Nat.le_trans ?_ (countOccsL_le_append_right _ _ _)
    refine Nat.le_trans ?_ (countOccsL_le_append_right _ _ _)
    refine Nat.le_trans ?_ (countOccsL_le_append_right _ _ _)
    refine Nat.le_trans ?_ (countOccsL_le_append_right _ _ _)
    refine Nat.le_trans ?_ (countOccsL_le_append_right _ _ _)
    refine Nat.le_trans ?_ (countOccsL_le_append_right _ _ _)
    refine Nat.le_trans ?_ (countOccsL_le_append_left _ _ _)
    decide

set_option maxRecDepth 1000000 in
/-- Witness for C3 (amended): the dollar-free hypotheses are discharged at
concrete inputs for the token-count conjunct, and the unconditional threshold
conjuncts are taken directly from the theorem. -/
theorem c3_placeholder_tokens_witness :
    ('$' ∉ ("T" : String).data) ∧ ('$' ∉ ("ts" : String).data) ∧
    ('$' ∉ ("val" : String).data) ∧ ('$' ∉ ("1d" : String).data) ∧
    (countOccs "$\x7bregion\x7d" (generate_series_decomposition_query "T"
        ["ts", "val"] (some "region") "1d") = 1 ∧
      countOccs "$\x7bregion\x7d" (generate_series_decomposition_query "T"
        ["ts", "val"] none "1d") = 0) ∧
    (∀ dimension_column : Option String,
      1 ≤ countOccs "todouble(\"$\x7bAnomalyThreshold\x7d\")"
        (generate_series_decompose_anomalies_query "T"
          ["ts", "val"] dimension_column "1d")) ∧
    (∀ d : String, 1 ≤ countOccs "todouble(\"$\x7bAnomalyThreshold\x7d\")"
        (generate_anomaly_count_bar_chart "T" ["ts", "val"] d "1d")) ∧
    (∀ (d : String) (ds : List String),
      (generate_anomaly_count_per_segment_query "T" ["ts", "val"]
          (some (d :: ds)) "1d").elim False
        (fun q => 1 ≤ countOccs "todouble(\"$\x7bAnomalyThreshold\x7d\")" q)) ∧
    (∀ (d : String) (ds : List String),
      (generate_dimension_anomaly_barchart "T" ["ts", "val"]
          (some (d :: ds)) "1d").elim False
        (fun q => 1 ≤ countOccs "todouble(\"$\x7bAnomalyThreshold\x7d\")" q)) :=
  ⟨by decide, by decide, by decide, by decide,
    (c3_placeholder_tokens "T" "ts" "val" "1d").1 (by decide) (by decide) (by decide)
      (by decide),
    (c3_placeholder_tokens "T" "ts" "val" "1d").2.1,
    (c3_placeholder_tokens "T" "ts" "val" "1d").2.2.1,
    (c3_placeholder_tokens "T" "ts" "val" "1d").2.2.2.1,
    (c3_placeholder_tokens "T" "ts" "val" "1d").2.2.2.2⟩
